import Mathlib

/-!
Shallow embedding of the Pomodoro timer component
(`src/components/PomodoroTimer.tsx`, mounted from `src/App.tsx`).

The component state consists of the five `useState` cells: `timeLeft`,
`isRunning`, `mode`, `completedSessions`, `totalSessions`.  JavaScript
numbers are modelled as `Int` for the countdown (so non-negativity is a
theorem, not a typing artifact) and `Nat` for the session counters; the
percentage computed by `getProgress` uses exact rationals.

React state updates inside one handler are applied in dispatch order:
the functional updater passed to `setTimeLeft` yields the value at its
own queue position, and `setTimeLeft` calls made from inside
`handleTimerComplete` (which runs during that updater) are applied
afterwards.  Since `handleTimerComplete` writes `timeLeft` on every
branch, a completing tick ends with the new mode's full duration, the
intermediate `0` being overwritten.  `tick` below composes the two in
that order.

The notification sound is modelled by its observable effect: the second
component of `handleTimerComplete`'s result counts how many times
`playNotificationSound` was invoked.  A separate fallible variant
`handleTimerCompleteE` models the fact that the source has no
`try`/`catch` around the Web Audio calls: when audio fails, the
exception propagates out of `handleTimerComplete` after the
`setIsRunning(false)` dispatch, so only that update survives.
-/

inductive TimerMode where
  | work
  | shortBreak
  | longBreak
deriving DecidableEq, Repr

def WORK_DURATION : Int := 25 * 60

def SHORT_BREAK_DURATION : Int := 5 * 60

def LONG_BREAK_DURATION : Int := 15 * 60

structure TimerState where
  timeLeft : Int
  isRunning : Bool
  mode : TimerMode
  completedSessions : Nat
  totalSessions : Nat
deriving DecidableEq, Repr

/-- The initial `useState` values: work mode, full work duration, stopped,
both session counters at 0. -/
def initialState : TimerState :=
  { timeLeft := WORK_DURATION
    isRunning := false
    mode := TimerMode.work
    completedSessions := 0
    totalSessions := 0 }

/-- `handleTimerComplete`: stops the timer, plays the notification once,
then branches on the current mode; a work completion increments both
session counters to the same new value and picks the break by
`newCompleted % 4`, a break completion returns to work.  The second
component counts invocations of `playNotificationSound`. -/
def handleTimerComplete (s : TimerState) : TimerState × Nat :=
  let s1 := { s with isRunning := false }
  if s1.mode = TimerMode.work then
    let newCompleted := s1.completedSessions + 1
    let s2 := { s1 with completedSessions := newCompleted, totalSessions := newCompleted }
    if newCompleted % 4 = 0 then
      ({ s2 with mode := TimerMode.longBreak, timeLeft := LONG_BREAK_DURATION }, 1)
    else
      ({ s2 with mode := TimerMode.shortBreak, timeLeft := SHORT_BREAK_DURATION }, 1)
  else
    ({ s1 with mode := TimerMode.work, timeLeft := WORK_DURATION }, 1)

/-- `playNotificationSound` builds an `AudioContext`, oscillator and gain
node with no `try`/`catch`; the Web Audio calls are the sole fallible
operations, abstracted by the `audioOk` flag. -/
def playNotificationSound (audioOk : Bool) : Except Unit Unit :=
  if audioOk then Except.ok () else Except.error ()

/-- `handleTimerComplete` with fallible audio.  The source calls
`playNotificationSound()` right after `setIsRunning(false)` with no
`try`/`catch`, so on audio failure the exception propagates and only the
`isRunning := false` update survives (`Except.error` carries that
state); on success the full transition of `handleTimerComplete` runs. -/
def handleTimerCompleteE (audioOk : Bool) (s : TimerState) :
    Except TimerState (TimerState × Nat) :=
  let s1 := { s with isRunning := false }
  match playNotificationSound audioOk with
  | Except.error _ => Except.error s1
  | Except.ok _ =>
    if s1.mode = TimerMode.work then
      let newCompleted := s1.completedSessions + 1
      let s2 := { s1 with completedSessions := newCompleted, totalSessions := newCompleted }
      if newCompleted % 4 = 0 then
        Except.ok ({ s2 with mode := TimerMode.longBreak, timeLeft := LONG_BREAK_DURATION }, 1)
      else
        Except.ok ({ s2 with mode := TimerMode.shortBreak, timeLeft := SHORT_BREAK_DURATION }, 1)
    else
      Except.ok ({ s1 with mode := TimerMode.work, timeLeft := WORK_DURATION }, 1)

/-- The functional updater passed to `setTimeLeft` by the interval
callback: returns `0` when `prev <= 1` (after invoking the completion
handler), else `prev - 1`. -/
def tickUpdater (prev : Int) : Int :=
  if prev ≤ 1 then 0 else prev - 1

/-- One firing of the interval callback.  The interval exists only while
`isRunning` (the effect clears it otherwise), so a tick on a stopped
state changes nothing and plays no sound.  While running, the updater
yields `prev - 1` when `prev > 1`; when `prev <= 1` it invokes
`handleTimerComplete` and yields `0`, and the handler's own `setTimeLeft`
dispatches land after that `0` in the update queue. -/
def tick (s : TimerState) : TimerState × Nat :=
  if s.isRunning then
    if s.timeLeft ≤ 1 then
      handleTimerComplete { s with timeLeft := 0 }
    else
      ({ s with timeLeft := s.timeLeft - 1 }, 0)
  else
    (s, 0)

/-- `toggleTimer`: `setIsRunning(!isRunning)`. -/
def toggleTimer (s : TimerState) : TimerState :=
  { s with isRunning := !s.isRunning }

/-- `resetTimer`: stops the timer and restores the current mode's full
duration via the source's if/else-if chain. -/
def resetTimer (s : TimerState) : TimerState :=
  let s1 := { s with isRunning := false }
  if s.mode = TimerMode.work then
    { s1 with timeLeft := WORK_DURATION }
  else if s.mode = TimerMode.shortBreak then
    { s1 with timeLeft := SHORT_BREAK_DURATION }
  else
    { s1 with timeLeft := LONG_BREAK_DURATION }

/-- `switchMode(newMode)`: stops the timer, sets the mode, and loads the
new mode's full duration via the source's if/else-if chain. -/
def switchMode (newMode : TimerMode) (s : TimerState) : TimerState :=
  let s1 := { s with isRunning := false, mode := newMode }
  if newMode = TimerMode.work then
    { s1 with timeLeft := WORK_DURATION }
  else if newMode = TimerMode.shortBreak then
    { s1 with timeLeft := SHORT_BREAK_DURATION }
  else
    { s1 with timeLeft := LONG_BREAK_DURATION }

/-- `getProgress`: starts from `WORK_DURATION`, overrides for the break
modes, and returns `((totalDuration - timeLeft) / totalDuration) * 100`,
computed exactly in `ℚ`. -/
def getProgress (s : TimerState) : ℚ :=
  let totalDuration : ℚ := (WORK_DURATION : ℚ)
  let totalDuration := if s.mode = TimerMode.shortBreak then (SHORT_BREAK_DURATION : ℚ) else totalDuration
  let totalDuration := if s.mode = TimerMode.longBreak then (LONG_BREAK_DURATION : ℚ) else totalDuration
  ((totalDuration - (s.timeLeft : ℚ)) / totalDuration) * 100

/-- The fixed duration the spec associates with each mode (used only in
theorem statements, to compare against the source's if/else-if chains). -/
def modeDuration : TimerMode → Int
  | TimerMode.work => WORK_DURATION
  | TimerMode.shortBreak => SHORT_BREAK_DURATION
  | TimerMode.longBreak => LONG_BREAK_DURATION

/-- States reachable from the initial state by ticks, mode switches,
start/pause toggles, resets, and completions. -/
inductive Reachable : TimerState → Prop where
  | init : Reachable initialState
  | step_tick {s : TimerState} : Reachable s → Reachable (tick s).1
  | step_switch {s : TimerState} (m : TimerMode) : Reachable s → Reachable (switchMode m s)
  | step_toggle {s : TimerState} : Reachable s → Reachable (toggleTimer s)
  | step_reset {s : TimerState} : Reachable s → Reachable (resetTimer s)
  | step_complete {s : TimerState} : Reachable s → Reachable (handleTimerComplete s).1

/-! ### Helper lemmas -/

/-- The countdown invariant: `timeLeft` is non-negative and bounded by the
current mode's fixed duration. -/
def TimerInv (s : TimerState) : Prop :=
  0 ≤ s.timeLeft ∧ s.timeLeft ≤ modeDuration s.mode

lemma handleTimerComplete_snd (s : TimerState) : (handleTimerComplete s).2 = 1 := by
  by_cases h : s.mode = TimerMode.work
  · by_cases h4 : (s.completedSessions + 1) % 4 = 0
    · simp [handleTimerComplete, h, h4]
    · simp [handleTimerComplete, h, h4]
  · simp [handleTimerComplete, h]

lemma handleTimerComplete_isRunning (s : TimerState) :
    (handleTimerComplete s).1.isRunning = false := by
  by_cases h : s.mode = TimerMode.work
  · by_cases h4 : (s.completedSessions + 1) % 4 = 0
    · simp [handleTimerComplete, h, h4]
    · simp [handleTimerComplete, h, h4]
  · simp [handleTimerComplete, h]

lemma handleTimerComplete_timeLeft (s : TimerState) :
    (handleTimerComplete s).1.timeLeft = modeDuration (handleTimerComplete s).1.mode := by
  by_cases h : s.mode = TimerMode.work
  · by_cases h4 : (s.completedSessions + 1) % 4 = 0
    · simp [handleTimerComplete, h, h4, modeDuration]
    · simp [handleTimerComplete, h, h4, modeDuration]
  · simp [handleTimerComplete, h, modeDuration]

lemma handleTimerComplete_inv (s : TimerState) : TimerInv (handleTimerComplete s).1 := by
  refine ⟨?_, le_of_eq (handleTimerComplete_timeLeft s)⟩
  rw [handleTimerComplete_timeLeft s]
  cases (handleTimerComplete s).1.mode <;> decide

lemma handleTimerComplete_sessions (s : TimerState)
    (h : s.totalSessions = s.completedSessions) :
    (handleTimerComplete s).1.totalSessions = (handleTimerComplete s).1.completedSessions := by
  by_cases hm : s.mode = TimerMode.work
  · by_cases h4 : (s.completedSessions + 1) % 4 = 0
    · simp [handleTimerComplete, hm, h4]
    · simp [handleTimerComplete, hm, h4]
  · simp [handleTimerComplete, hm, h]

lemma switchMode_eq (m : TimerMode) (s : TimerState) :
    switchMode m s =
      { timeLeft := modeDuration m, isRunning := false, mode := m,
        completedSessions := s.completedSessions, totalSessions := s.totalSessions } := by
  cases m <;> simp [switchMode, modeDuration]

lemma resetTimer_eq (s : TimerState) :
    resetTimer s =
      { timeLeft := modeDuration s.mode, isRunning := false, mode := s.mode,
        completedSessions := s.completedSessions, totalSessions := s.totalSessions } := by
  rcases s with ⟨t, r, m, c, tot⟩
  cases m <;> simp [resetTimer, modeDuration]

lemma tick_not_running (s : TimerState) (h : s.isRunning = false) : tick s = (s, 0) := by
  simp [tick, h]

lemma tick_decrement (s : TimerState) (hr : s.isRunning = true) (h : 1 < s.timeLeft) :
    tick s = ({ s with timeLeft := s.timeLeft - 1 }, 0) := by
  simp [tick, hr, not_le.mpr h]

lemma tick_complete (s : TimerState) (hr : s.isRunning = true) (h : s.timeLeft ≤ 1) :
    tick s = handleTimerComplete { s with timeLeft := 0 } := by
  simp [tick, hr, h]

lemma modeDuration_nonneg (m : TimerMode) : 0 ≤ modeDuration m := by
  cases m <;> decide

lemma timerInv_reachable {s : TimerState} (h : Reachable s) : TimerInv s := by
  induction h with
  | init => exact ⟨by decide, by decide⟩
  | @step_tick s _ ih =>
    cases hr : s.isRunning with
    | false => rw [tick_not_running s hr]; exact ih
    | true =>
      by_cases hle : s.timeLeft ≤ 1
      · rw [tick_complete s hr hle]; exact handleTimerComplete_inv _
      · rw [tick_decrement s hr (not_le.mp hle)]
        obtain ⟨ih1, ih2⟩ := ih
        exact ⟨show (0:Int) ≤ s.timeLeft - 1 by omega,
          show s.timeLeft - 1 ≤ modeDuration s.mode by omega⟩
  | @step_switch s m _ _ =>
    rw [switchMode_eq]
    exact ⟨modeDuration_nonneg m, le_refl _⟩
  | @step_toggle s _ ih => exact ih
  | @step_reset s _ _ =>
    rw [resetTimer_eq]
    exact ⟨modeDuration_nonneg s.mode, le_refl _⟩
  | @step_complete s _ _ => exact handleTimerComplete_inv s

lemma sessions_eq_reachable {s : TimerState} (h : Reachable s) :
    s.totalSessions = s.completedSessions := by
  induction h with
  | init => rfl
  | @step_tick s _ ih =>
    cases hr : s.isRunning with
    | false => rw [tick_not_running s hr]; exact ih
    | true =>
      by_cases hle : s.timeLeft ≤ 1
      · rw [tick_complete s hr hle]
        exact handleTimerComplete_sessions _ ih
      · rw [tick_decrement s hr (not_le.mp hle)]; exact ih
  | @step_switch s m _ ih => rw [switchMode_eq]; exact ih
  | @step_toggle s _ ih => exact ih
  | @step_reset s _ ih => rw [resetTimer_eq]; exact ih
  | @step_complete s _ ih => exact handleTimerComplete_sessions _ ih

lemma handleTimerComplete_work_sessions (s : TimerState) (hm : s.mode = TimerMode.work) :
    (handleTimerComplete s).1.completedSessions = s.completedSessions + 1 := by
  by_cases h4 : (s.completedSessions + 1) % 4 = 0
  · simp [handleTimerComplete, hm, h4]
  · simp [handleTimerComplete, hm, h4]

lemma handleTimerComplete_mode_ne (s : TimerState) :
    (handleTimerComplete s).1.mode ≠ s.mode := by
  by_cases hm : s.mode = TimerMode.work
  · by_cases h4 : (s.completedSessions + 1) % 4 = 0
    · simp [handleTimerComplete, hm, h4]
    · simp [handleTimerComplete, hm, h4]
  · simp [handleTimerComplete, hm]
    exact fun h => hm h.symm

/-! ### Claim theorems -/

/-- C1: when the timer is running and the countdown reaches 0 on this tick,
a work completion increments the session count and moves to a long break of
900 seconds when the new count is divisible by 4 and otherwise to a short
break of 300 seconds; a break completion returns to work with 1500 seconds
and leaves the session count unchanged; in every case the timer stops and
the notification plays exactly once. -/
theorem completion_transition (s : TimerState) (hr : s.isRunning = true)
    (hz : s.timeLeft ≤ 1) :
    (tick s).1.isRunning = false ∧ (tick s).2 = 1 ∧
    (s.mode = TimerMode.work →
      (tick s).1.completedSessions = s.completedSessions + 1 ∧
      ((s.completedSessions + 1) % 4 = 0 →
        (tick s).1.mode = TimerMode.longBreak ∧ (tick s).1.timeLeft = 900) ∧
      ((s.completedSessions + 1) % 4 ≠ 0 →
        (tick s).1.mode = TimerMode.shortBreak ∧ (tick s).1.timeLeft = 300)) ∧
    (s.mode ≠ TimerMode.work →
      (tick s).1.mode = TimerMode.work ∧ (tick s).1.timeLeft = 1500 ∧
      (tick s).1.completedSessions = s.completedSessions) := by
  rw [tick_complete s hr hz]
  by_cases hm : s.mode = TimerMode.work
  · by_cases h4 : (s.completedSessions + 1) % 4 = 0
    · simp [handleTimerComplete, hm, h4, LONG_BREAK_DURATION]
    · simp [handleTimerComplete, hm, h4, SHORT_BREAK_DURATION]
  · simp [handleTimerComplete, hm, WORK_DURATION]

/-- Witness for C1: one tick from work mode with 1 second left and no
completed session stops the timer, plays one notification, and yields a
short break of 300 seconds with one completed session. -/
theorem completion_transition_witness :
    ({ timeLeft := 1, isRunning := true, mode := TimerMode.work,
       completedSessions := 0, totalSessions := 0 } : TimerState).timeLeft ≤ 1 ∧
    (tick { timeLeft := 1, isRunning := true, mode := TimerMode.work,
            completedSessions := 0, totalSessions := 0 }).1.isRunning = false ∧
    (tick { timeLeft := 1, isRunning := true, mode := TimerMode.work,
            completedSessions := 0, totalSessions := 0 }).2 = 1 :=
  ⟨by decide,
   (completion_transition
     { timeLeft := 1, isRunning := true, mode := TimerMode.work,
       completedSessions := 0, totalSessions := 0 } rfl (by decide)).1,
   (completion_transition
     { timeLeft := 1, isRunning := true, mode := TimerMode.work,
       completedSessions := 0, totalSessions := 0 } rfl (by decide)).2.1⟩

/-- C3: while running, a tick with more than 1 second left decrements the
countdown by exactly 1 and plays no sound; a tick with exactly 1 second
left makes the updater yield 0 and invokes the completion handler (which
plays the notification once). -/
theorem tick_step (s : TimerState) (hr : s.isRunning = true) :
    (1 < s.timeLeft → tick s = ({ s with timeLeft := s.timeLeft - 1 }, 0)) ∧
    (s.timeLeft = 1 →
      tickUpdater s.timeLeft = 0 ∧
      tick s = handleTimerComplete { s with timeLeft := 0 } ∧
      (tick s).2 = 1) := by
  constructor
  · intro h; exact tick_decrement s hr h
  · intro h
    refine ⟨by simp [tickUpdater, h], tick_complete s hr (le_of_eq h), ?_⟩
    rw [tick_complete s hr (le_of_eq h)]
    exact handleTimerComplete_snd _

/-- Witness for C3: a running work state with 5 seconds left ticks down to
4 seconds with no notification. -/
theorem tick_step_witness :
    (1 : Int) < 5 ∧
    tick { timeLeft := 5, isRunning := true, mode := TimerMode.work,
           completedSessions := 0, totalSessions := 0 } =
      ({ timeLeft := 4, isRunning := true, mode := TimerMode.work,
         completedSessions := 0, totalSessions := 0 }, 0) :=
  ⟨by decide,
   (tick_step
     { timeLeft := 5, isRunning := true, mode := TimerMode.work,
       completedSessions := 0, totalSessions := 0 } rfl).1 (by decide)⟩

/-- C10: the completion guard is `prev <= 1`, so a tick that fires while
running with the countdown already at 0 invokes the completion handler —
stopping the timer, resetting the countdown to the next mode's duration,
incrementing the session count in work mode, playing the notification —
and in particular changes the mode rather than leaving the state alone. -/
theorem zero_guard_completion (s : TimerState) (hr : s.isRunning = true)
    (hz : s.timeLeft = 0) :
    tick s = handleTimerComplete { s with timeLeft := 0 } ∧
    (tick s).2 = 1 ∧
    (tick s).1.isRunning = false ∧
    (tick s).1.timeLeft = modeDuration (tick s).1.mode ∧
    (s.mode = TimerMode.work → (tick s).1.completedSessions = s.completedSessions + 1) ∧
    (tick s).1.mode ≠ s.mode := by
  have hc := tick_complete s hr (by omega)
  refine ⟨hc, ?_, ?_, ?_, ?_, ?_⟩
  · rw [hc]; exact handleTimerComplete_snd _
  · rw [hc]; exact handleTimerComplete_isRunning _
  · rw [hc]; exact handleTimerComplete_timeLeft _
  · intro hm; rw [hc]
    exact handleTimerComplete_work_sessions { s with timeLeft := 0 } hm
  · rw [hc]; exact handleTimerComplete_mode_ne { s with timeLeft := 0 }

/-- Witness for C10: a tick on a running work state already at 0 produces a
short break of 300 seconds with one completed session and one
notification. -/
theorem zero_guard_completion_witness :
    ({ timeLeft := 0, isRunning := true, mode := TimerMode.work,
       completedSessions := 0, totalSessions := 0 } : TimerState).timeLeft = 0 ∧
    (tick { timeLeft := 0, isRunning := true, mode := TimerMode.work,
            completedSessions := 0, totalSessions := 0 }).2 = 1 ∧
    (tick { timeLeft := 0, isRunning := true, mode := TimerMode.work,
            completedSessions := 0, totalSessions := 0 }).1.mode ≠ TimerMode.work :=
  ⟨by decide,
   (zero_guard_completion
     { timeLeft := 0, isRunning := true, mode := TimerMode.work,
       completedSessions := 0, totalSessions := 0 } rfl rfl).2.1,
   (zero_guard_completion
     { timeLeft := 0, isRunning := true, mode := TimerMode.work,
       completedSessions := 0, totalSessions := 0 } rfl rfl).2.2.2.2.2⟩

/-- C2 (code bug): `playNotificationSound` has no `try`/`catch`, so when
audio fails the completion transition does not proceed — the exception
escapes `handleTimerComplete` right after `setIsRunning(false)`, leaving
the mode, countdown, and session counters untouched, while a successful
completion performs the full transition.  The two resulting outcomes
differ, contradicting the claim that the state is the same whether or not
the sound succeeds. -/
theorem audio_failure_aborts_completion :
    handleTimerCompleteE false
      { timeLeft := 0, isRunning := true, mode := TimerMode.work,
        completedSessions := 0, totalSessions := 0 } =
      Except.error
        { timeLeft := 0, isRunning := false, mode := TimerMode.work,
          completedSessions := 0, totalSessions := 0 } ∧
    handleTimerCompleteE true
      { timeLeft := 0, isRunning := true, mode := TimerMode.work,
        completedSessions := 0, totalSessions := 0 } =
      Except.ok
        ({ timeLeft := 300, isRunning := false, mode := TimerMode.shortBreak,
           completedSessions := 1, totalSessions := 1 }, 1) :=
  ⟨rfl, rfl⟩

/-- C4 counterexample: `switchMode` is an operation performed while
`isRunning` is false that decreases `remainingSeconds` — from a reachable
long-break state with 900 seconds left and the timer stopped, switching to
the short break drops the countdown to 300. -/
theorem paused_switchMode_decreases :
    Reachable (switchMode TimerMode.longBreak initialState) ∧
    (switchMode TimerMode.longBreak initialState).isRunning = false ∧
    (switchMode TimerMode.shortBreak
        (switchMode TimerMode.longBreak initialState)).timeLeft <
      (switchMode TimerMode.longBreak initialState).timeLeft :=
  ⟨Reachable.step_switch TimerMode.longBreak Reachable.init, rfl, by decide⟩

/-- C4 (amended): in every reachable state the countdown is between 0 and
the current mode's fixed duration, and no tick performed while `isRunning`
is false changes the state at all (mode switches and resets may still load
a smaller fixed duration). -/
theorem reachable_invariant (s : TimerState) (h : Reachable s) :
    (0 ≤ s.timeLeft ∧ s.timeLeft ≤ modeDuration s.mode) ∧
    (s.isRunning = false → tick s = (s, 0)) :=
  ⟨timerInv_reachable h, fun hr => tick_not_running s hr⟩

/-- Witness for C4: the initial state satisfies the bounds and a tick on
it (stopped) changes nothing. -/
theorem reachable_invariant_witness :
    (0 ≤ initialState.timeLeft ∧ initialState.timeLeft ≤ modeDuration initialState.mode) ∧
    tick initialState = (initialState, 0) :=
  ⟨(reachable_invariant initialState Reachable.init).1,
   (reachable_invariant initialState Reachable.init).2 rfl⟩

/-- C5 counterexample: in work mode with 0 seconds left, `getProgress`
returns 100, not the fraction 1.0 claimed. -/
theorem getProgress_not_fraction :
    getProgress { timeLeft := 0, isRunning := false, mode := TimerMode.work,
                  completedSessions := 0, totalSessions := 0 } = 100 ∧
    getProgress { timeLeft := 0, isRunning := false, mode := TimerMode.work,
                  completedSessions := 0, totalSessions := 0 } ≠ 1 := by
  have h : getProgress { timeLeft := 0, isRunning := false, mode := TimerMode.work,
                         completedSessions := 0, totalSessions := 0 } = 100 := by
    simp [getProgress, WORK_DURATION, SHORT_BREAK_DURATION, LONG_BREAK_DURATION]
  rw [h]
  norm_num

/-- C5 (amended): `getProgress` returns the percentage — 100 times the
fraction `(duration - remaining) / duration` for the current mode — so it
is 0 at a full work countdown of 1500 and 100 when the countdown reaches
0. -/
theorem getProgress_percentage (s : TimerState) :
    getProgress s =
      ((modeDuration s.mode : ℚ) - (s.timeLeft : ℚ)) / (modeDuration s.mode : ℚ) * 100 ∧
    getProgress { timeLeft := 1500, isRunning := false, mode := TimerMode.work,
                  completedSessions := 0, totalSessions := 0 } = 0 ∧
    getProgress { timeLeft := 0, isRunning := false, mode := TimerMode.work,
                  completedSessions := 0, totalSessions := 0 } = 100 := by
  refine ⟨?_,
    by simp [getProgress, WORK_DURATION, SHORT_BREAK_DURATION, LONG_BREAK_DURATION],
    by simp [getProgress, WORK_DURATION, SHORT_BREAK_DURATION, LONG_BREAK_DURATION]⟩
  cases hm : s.mode <;> simp [getProgress, modeDuration, hm]

/-- C6: switching to any mode stops the timer, sets that mode, loads its
fixed duration (1500 for work, 300 for the short break, 900 for the long
break), and leaves the session counters untouched. -/
theorem switchMode_spec (s : TimerState) (m : TimerMode) :
    (switchMode m s).isRunning = false ∧
    (switchMode m s).mode = m ∧
    (switchMode m s).timeLeft = modeDuration m ∧
    (switchMode m s).completedSessions = s.completedSessions ∧
    (switchMode m s).totalSessions = s.totalSessions ∧
    modeDuration TimerMode.work = 1500 ∧
    modeDuration TimerMode.shortBreak = 300 ∧
    modeDuration TimerMode.longBreak = 900 := by
  rw [switchMode_eq]
  exact ⟨rfl, rfl, rfl, rfl, rfl, by decide, by decide, by decide⟩

/-- C7: resetting stops the timer and restores the current mode's fixed
duration, leaving the mode and session counters untouched; in particular,
a running long break at 42 seconds resets to 900 seconds, stopped. -/
theorem resetTimer_spec (s : TimerState) :
    (resetTimer s).isRunning = false ∧
    (resetTimer s).timeLeft = modeDuration s.mode ∧
    (resetTimer s).mode = s.mode ∧
    (resetTimer s).completedSessions = s.completedSessions ∧
    (resetTimer s).totalSessions = s.totalSessions ∧
    resetTimer { timeLeft := 42, isRunning := true, mode := TimerMode.longBreak,
                 completedSessions := s.completedSessions,
                 totalSessions := s.totalSessions } =
      { timeLeft := 900, isRunning := false, mode := TimerMode.longBreak,
        completedSessions := s.completedSessions,
        totalSessions := s.totalSessions } := by
  refine ⟨?_, ?_, ?_, ?_, ?_, ?_⟩ <;>
    simp [resetTimer_eq, modeDuration, LONG_BREAK_DURATION]

/-- C8: toggling negates the running flag and leaves the countdown, mode,
and both session counters unchanged. -/
theorem toggleTimer_spec (s : TimerState) :
    (toggleTimer s).isRunning = !s.isRunning ∧
    (toggleTimer s).timeLeft = s.timeLeft ∧
    (toggleTimer s).mode = s.mode ∧
    (toggleTimer s).completedSessions = s.completedSessions ∧
    (toggleTimer s).totalSessions = s.totalSessions :=
  ⟨rfl, rfl, rfl, rfl, rfl⟩

/-- C9: both session counters start at 0 and stay equal in every reachable
state (work completions set them to the same new value), and the other
operations — mode switch, reset, toggle, and a non-completing tick —
change neither counter. -/
theorem totalSessions_mirrors_completed :
    initialState.completedSessions = 0 ∧ initialState.totalSessions = 0 ∧
    (∀ s : TimerState, Reachable s → s.totalSessions = s.completedSessions) ∧
    (∀ (s : TimerState) (m : TimerMode),
      (switchMode m s).completedSessions = s.completedSessions ∧
      (switchMode m s).totalSessions = s.totalSessions) ∧
    (∀ s : TimerState,
      (resetTimer s).completedSessions = s.completedSessions ∧
      (resetTimer s).totalSessions = s.totalSessions ∧
      (toggleTimer s).completedSessions = s.completedSessions ∧
      (toggleTimer s).totalSessions = s.totalSessions) ∧
    (∀ s : TimerState, s.isRunning = true → 1 < s.timeLeft →
      (tick s).1.completedSessions = s.completedSessions ∧
      (tick s).1.totalSessions = s.totalSessions) := by
  refine ⟨rfl, rfl, fun s h => sessions_eq_reachable h, fun s m => ?_, fun s => ?_,
    fun s hr h1 => ?_⟩
  · rw [switchMode_eq]; exact ⟨rfl, rfl⟩
  · rw [resetTimer_eq]; exact ⟨rfl, rfl, rfl, rfl⟩
  · rw [tick_decrement s hr h1]; exact ⟨rfl, rfl⟩

/-- Witness for C9: the initial state is reachable and its two counters
agree, and a mode switch on it changes neither. -/
theorem totalSessions_mirrors_completed_witness :
    initialState.totalSessions = initialState.completedSessions ∧
    (switchMode TimerMode.shortBreak initialState).completedSessions =
      initialState.completedSessions :=
  ⟨totalSessions_mirrors_completed.2.2.1 initialState Reachable.init,
   (totalSessions_mirrors_completed.2.2.2.1 initialState TimerMode.shortBreak).1⟩
